import Mathlib

/-!
Verification development for the SerpPro API client (moab-apis.py).

The Python client is embedded shallowly:
  - pydantic request records become Lean structures with the same fields and
    default values; the serialization call model_dump with the exclude_none
    flag becomes an explicit association-list builder that drops None fields;
  - JSON values become an inductive type; decoding a JSON object into a
    pydantic model (all fields Optional) becomes an Option-valued decoder that
    fails exactly where pydantic raises a ValidationError or TypeError;
  - the request executor _make_request, a while-True loop over HTTP attempts,
    becomes a function over a finite list of attempt outcomes (the environment
    trace): a timeout outcome makes the loop continue, any other outcome is
    terminal; an empty trace means the loop is still running; the text of a
    received response is empty, valid JSON, or non-empty unparsable text on
    which response.json raises a JSONDecodeError — itself a RequestException,
    hence converted to the typed error with status 0;
  - raising SerpProAPIError becomes returning an apiError value; an uncaught
    Python exception that is not a SerpProAPIError (for example the
    AttributeError raised when the fallback lookup error_data.get is applied
    to a non-dict decoded body) becomes a raised value.
-/

/-- JSON values, as produced by response.json. -/
inductive Json : Type
  | null : Json
  | str (s : String) : Json
  | num (n : Int) : Json
  | bool (b : Bool) : Json
  | arr (items : List Json) : Json
  | obj (fields : List (String × Json)) : Json

/-- Key lookup in a decoded JSON object (Python dict lookup; decoded JSON
objects have unique keys, so first match is the dict value). -/
def jsonLookup (fields : List (String × Json)) (key : String) : Option Json :=
  match fields with
  | [] => none
  | (k, v) :: rest => if k = key then some v else jsonLookup rest key

-- ===== ENUMS (closed string vocabularies from the source) =====

/-- Enum ServiceType from the source. -/
inductive ServiceType : Type
  | WORDSTAT_FREQUENCY | WORDSTAT_DIRECT_FREQUENCY | WORDSTAT_DEEP
  | WORDSTAT_DIRECT_DEEP | WORDSTAT_HISTORY | YANDEX_SERP_POSITION
  | GOOGLE_SERP_POSITION | YANDEX_INDEXATION | GOOGLE_INDEXATION
  | YANDEX_SERP_URLS | GOOGLE_SERP_URLS
  deriving DecidableEq

/-- Wire string of each ServiceType member. -/
def ServiceType.value : ServiceType → String
  | .WORDSTAT_FREQUENCY => "WordstatFrequency"
  | .WORDSTAT_DIRECT_FREQUENCY => "WordstatDirectFrequency"
  | .WORDSTAT_DEEP => "WordstatDeep"
  | .WORDSTAT_DIRECT_DEEP => "WordstatDirectDeep"
  | .WORDSTAT_HISTORY => "WordstatHistory"
  | .YANDEX_SERP_POSITION => "YandexSerpPosition"
  | .GOOGLE_SERP_POSITION => "GoogleSerpPosition"
  | .YANDEX_INDEXATION => "YandexIndexation"
  | .GOOGLE_INDEXATION => "GoogleIndexation"
  | .YANDEX_SERP_URLS => "YandexSerpUrls"
  | .GOOGLE_SERP_URLS => "GoogleSerpUrls"

/-- Enum WordstatDevice from the source. -/
inductive WordstatDevice : Type
  | ALL | DESKTOP | PHONE | TABLET
  deriving DecidableEq

/-- Wire string of each WordstatDevice member. -/
def WordstatDevice.value : WordstatDevice → String
  | .ALL => "All"
  | .DESKTOP => "Desktop"
  | .PHONE => "Phone"
  | .TABLET => "Tablet"

/-- Enum WordstatSyntax from the source. -/
inductive WordstatSyntax : Type
  | NONE | WS | QUOTES | QUOTES_EXCLAMATION_MARK | QUOTES_SQUARE_BRACKETS
  | QUOTES_EXCLAMATION_MARK_SQUARE_BRACKETS
  deriving DecidableEq

/-- Wire string of each WordstatSyntax member. -/
def WordstatSyntax.value : WordstatSyntax → String
  | .NONE => "None"
  | .WS => "Ws"
  | .QUOTES => "Quotes"
  | .QUOTES_EXCLAMATION_MARK => "QuotesExclamationMark"
  | .QUOTES_SQUARE_BRACKETS => "QuotesSquareBrackets"
  | .QUOTES_EXCLAMATION_MARK_SQUARE_BRACKETS => "QuotesExclamationMarkSquareBrackets"

/-- Enum WordstatTaskType from the source. -/
inductive WordstatTaskType : Type
  | REGULAR | DIRECT
  deriving DecidableEq

/-- Wire string of each WordstatTaskType member. -/
def WordstatTaskType.value : WordstatTaskType → String
  | .REGULAR => "Regular"
  | .DIRECT => "Direct"

/-- Enum WordstatGrouping from the source. -/
inductive WordstatGrouping : Type
  | DAY | WEEK | MONTH
  deriving DecidableEq

/-- Wire string of each WordstatGrouping member. -/
def WordstatGrouping.value : WordstatGrouping → String
  | .DAY => "Day"
  | .WEEK => "Week"
  | .MONTH => "Month"

/-- Enum SearchSystem from the source. -/
inductive SearchSystem : Type
  | YANDEX | GOOGLE
  deriving DecidableEq

/-- Wire string of each SearchSystem member. -/
def SearchSystem.value : SearchSystem → String
  | .YANDEX => "Yandex"
  | .GOOGLE => "Google"

/-- Enum RegionSearchType from the source. -/
inductive RegionSearchType : Type
  | NAME | CODE
  deriving DecidableEq

/-- Wire string of each RegionSearchType member. -/
def RegionSearchType.value : RegionSearchType → String
  | .NAME => "Name"
  | .CODE => "Code"

-- ===== REQUEST MODELS =====

/-- FrequencyRequest: query and region are Optional with default None; the
field named syntax in the source is rendered querySyntax here because syntax
is reserved in Lean. Field defaults follow the source. -/
structure FrequencyRequest : Type where
  query : Option String := none
  region : Option String := none
  device : WordstatDevice := .ALL
  task_type : WordstatTaskType := .REGULAR
  querySyntax : WordstatSyntax := .WS
  deriving DecidableEq

/-- DeepRequest, field defaults as in the source. -/
structure DeepRequest : Type where
  query : Option String := none
  region : Option String := none
  device : WordstatDevice := .ALL
  task_type : WordstatTaskType := .REGULAR
  deriving DecidableEq

/-- HistoryRequest: the query field is required with pydantic constraints
min_length 1 and max_length 3000; the constraint is enforced by the smart
constructor HistoryRequest.validate below, mirroring pydantic construction. -/
structure HistoryRequest : Type where
  query : String
  region : Option String := none
  device : WordstatDevice := .ALL
  grouping : WordstatGrouping := .MONTH
  start_date : Option String := none
  end_date : Option String := none
  deriving DecidableEq

/-- Pydantic construction of a HistoryRequest: returns none exactly when a
ValidationError is raised, that is when the query length is outside [1, 3000].
Python len counts code points, as does String.length. -/
def HistoryRequest.validate (query : String) (region : Option String)
    (device : WordstatDevice) (grouping : WordstatGrouping)
    (start_date end_date : Option String) : Option HistoryRequest :=
  if 1 ≤ query.length ∧ query.length ≤ 3000 then
    some ⟨query, region, device, grouping, start_date, end_date⟩
  else
    none

/-- FinanceStatsRequest, all fields Optional with default None. -/
structure FinanceStatsRequest : Type where
  service_type : Option ServiceType := none
  start_date : Option String := none
  end_date : Option String := none
  deriving DecidableEq

-- ===== SERIALIZATION (model_dump with exclude_none) =====

/-- One payload entry for an Optional string field: dropped when the field is
None, as the exclude_none flag of model_dump prescribes. -/
def optEntry (key : String) (v : Option String) : List (String × Json) :=
  match v with
  | none => []
  | some s => [(key, Json.str s)]

/-- Serialization of a FrequencyRequest by model_dump with the exclude_none
flag: None fields are dropped; enum fields always serialize to their wire
string; declaration order is preserved. -/
def FrequencyRequest.model_dump_exclude_none (r : FrequencyRequest) :
    List (String × Json) :=
  optEntry "query" r.query ++ optEntry "region" r.region ++
    [("device", Json.str r.device.value),
     ("task_type", Json.str r.task_type.value),
     ("syntax", Json.str r.querySyntax.value)]

/-- Serialization of a DeepRequest by model_dump with the exclude_none flag. -/
def DeepRequest.model_dump_exclude_none (r : DeepRequest) :
    List (String × Json) :=
  optEntry "query" r.query ++ optEntry "region" r.region ++
    [("device", Json.str r.device.value),
     ("task_type", Json.str r.task_type.value)]

/-- Serialization of a HistoryRequest by model_dump with the exclude_none
flag: query is required and always present. -/
def HistoryRequest.model_dump_exclude_none (r : HistoryRequest) :
    List (String × Json) :=
  [("query", Json.str r.query)] ++ optEntry "region" r.region ++
    [("device", Json.str r.device.value),
     ("grouping", Json.str r.grouping.value)] ++
    optEntry "start_date" r.start_date ++ optEntry "end_date" r.end_date

/-- One payload entry for an Optional ServiceType field. -/
def optServiceEntry (key : String) (v : Option ServiceType) :
    List (String × Json) :=
  match v with
  | none => []
  | some s => [(key, Json.str s.value)]

/-- Serialization of a FinanceStatsRequest by model_dump with the
exclude_none flag. -/
def FinanceStatsRequest.model_dump_exclude_none (r : FinanceStatsRequest) :
    List (String × Json) :=
  optServiceEntry "service_type" r.service_type ++
    optEntry "start_date" r.start_date ++ optEntry "end_date" r.end_date

/-- Keys of a serialized payload. -/
def dumpKeys (payload : List (String × Json)) : List String :=
  payload.map Prod.fst

-- ===== RESPONSE AND ERROR MODELS =====

/-- RegionResponse: both fields Optional with default None. -/
structure RegionResponse : Type where
  name : Option String := none
  code : Option String := none
  deriving DecidableEq

/-- GlobalErrorModel: all fields Optional with default None. The source field
named instance is rendered instance_ because instance is reserved in Lean. -/
structure GlobalErrorModel : Type where
  id : Option String := none
  error_message : Option String := none
  instance_ : Option String := none
  invalid_data : Option (List String) := none
  deriving DecidableEq

/-- Pydantic decoding of an Optional string field from a possibly absent JSON
value: absent or null gives None, a string gives that string, any other JSON
value is a ValidationError (pydantic v2 does not coerce to str). -/
def decodeOptField (v : Option Json) : Option (Option String) :=
  match v with
  | none => some none
  | some Json.null => some none
  | some (Json.str s) => some (some s)
  | some _ => none

/-- Pydantic decoding of a JSON array into a list of strings; any non-string
element is a ValidationError. -/
def decodeStrList : List Json → Option (List String)
  | [] => some []
  | Json.str s :: rest =>
      match decodeStrList rest with
      | none => none
      | some l => some (s :: l)
  | _ :: _ => none

/-- Pydantic decoding of the Optional list-of-strings field invalid_data. -/
def decodeOptStrList (v : Option Json) : Option (Option (List String)) :=
  match v with
  | none => some none
  | some Json.null => some none
  | some (Json.arr items) =>
      match decodeStrList items with
      | none => none
      | some l => some (some l)
  | some _ => none

/-- Strict decoding of a JSON value into a GlobalErrorModel, as the pydantic
construction GlobalErrorModel with keyword expansion of the decoded body:
fails (pydantic ValidationError or Python TypeError, both caught by the bare
except in the source) when the value is not a JSON object or when a known
field has an ill-typed value; unknown keys are ignored (pydantic default
extra policy). -/
def decodeGlobalError (j : Json) : Option GlobalErrorModel :=
  match j with
  | Json.obj fields => do
      let idv ← decodeOptField (jsonLookup fields "id")
      let em ← decodeOptField (jsonLookup fields "error_message")
      let inst ← decodeOptField (jsonLookup fields "instance")
      let inv ← decodeOptStrList (jsonLookup fields "invalid_data")
      some ⟨idv, em, inst, inv⟩
  | _ => none

/-- The typed API error SerpProAPIError. Python does not constrain the type
of the message argument, and the fallback lookup can supply any JSON value,
so the message is modelled as a JSON value; a plain string message s appears
as Json.str s. -/
structure SerpProAPIError : Type where
  status_code : Nat
  message : Json
  error_model : Option GlobalErrorModel := none

-- ===== REQUEST EXECUTOR =====

/-- Python truthiness fallback: the expression joining error_message with a
default by the or operator. None and the empty string are falsy. -/
def pyStrOr (v : Option String) (dflt : String) : String :=
  match v with
  | none => dflt
  | some s => if s = "" then dflt else s

/-- Message text of the JSON decode error raised by response.json on an
empty body (requests raises a JSONDecodeError, which since requests 2.27 is
a RequestException and is therefore caught by the transport-error branch). -/
def jsonDecodeErrorMessage : String := "Expecting value: line 1 column 1 (char 0)"

/-- The text of one HTTP response as the executor sees it: empty text, a
non-empty text that decodes to the JSON value j, or a non-empty text that is
not valid JSON, carrying the message of the JSONDecodeError that
response.json raises on it. -/
inductive ResponseBody : Type
  | empty : ResponseBody
  | jsonBody (j : Json) : ResponseBody
  | unparsable (errMsg : String) : ResponseBody

/-- The expression computing error_data in the non-200 branches of the
source: an empty dict when the text is empty (text is falsy), otherwise the
result of response.json, which raises the JSONDecodeError (modelled as the
error case, carrying its message) when the text is not valid JSON. -/
def decodedErrorData : ResponseBody → Except String Json
  | ResponseBody.empty => Except.ok (Json.obj [])
  | ResponseBody.jsonBody j => Except.ok j
  | ResponseBody.unparsable m => Except.error m

/-- Outcome of one HTTP attempt inside the retry loop, as seen by the client:
a response with a status code and a body, a connect or read timeout, or any
other transport-level RequestException carrying its text. -/
inductive AttemptOutcome : Type
  | response (status : Nat) (body : ResponseBody) : AttemptOutcome
  | timeout : AttemptOutcome
  | transportError (msg : String) : AttemptOutcome

/-- Terminal result of one call to the request executor: the decoded JSON of
a 200 response, a raised SerpProAPIError, or an uncaught Python exception
that is not a SerpProAPIError, identified by its class name. -/
inductive RequestOutcome : Type
  | ok (body : Json) : RequestOutcome
  | apiError (e : SerpProAPIError) : RequestOutcome
  | raised (excName : String) : RequestOutcome

/-- Error handling once error_data has been computed: strict decode of it
into GlobalErrorModel with the truthiness fallback on its error_message; on
strict-decode failure, the permissive dict lookup of error_message with the
given default — which, applied to a decoded body that is not a dict, itself
raises an AttributeError that no handler catches. -/
def handle_error (status : Nat) (error_data : Json) (dflt : String) :
    RequestOutcome :=
  match decodeGlobalError error_data with
  | some g =>
      RequestOutcome.apiError ⟨status, Json.str (pyStrOr g.error_message dflt), some g⟩
  | none =>
      match error_data with
      | Json.obj fields =>
          RequestOutcome.apiError
            ⟨status, (jsonLookup fields "error_message").getD (Json.str dflt), none⟩
      | _ => RequestOutcome.raised "AttributeError"

/-- One non-200 branch of the executor: first evaluate error_data — if the
body text is non-empty but not valid JSON, response.json raises the
JSONDecodeError there, which the RequestException handler converts to the
typed error with status 0 and the raw parse-error text — then run the
decode-or-fallback error handling on the decoded value. -/
def handle_error_branch (status : Nat) (body : ResponseBody) (dflt : String) :
    RequestOutcome :=
  match decodedErrorData body with
  | Except.error m => RequestOutcome.apiError ⟨0, Json.str m, none⟩
  | Except.ok ed => handle_error status ed dflt

/-- Status-code interpretation of one received HTTP response, following the
source: 200 returns the decoded body (an empty or unparsable body makes
response.json raise a JSONDecodeError, caught as a RequestException and
re-raised as the typed error with status 0 and the parse-error text); 422
and every other status go through the error branch with their respective
default messages. -/
def handle_response (status : Nat) (body : ResponseBody) : RequestOutcome :=
  if status = 200 then
    match body with
    | ResponseBody.jsonBody j => RequestOutcome.ok j
    | ResponseBody.empty =>
        RequestOutcome.apiError ⟨0, Json.str jsonDecodeErrorMessage, none⟩
    | ResponseBody.unparsable m =>
        RequestOutcome.apiError ⟨0, Json.str m, none⟩
  else if status = 422 then
    handle_error_branch status body "Unprocessable Content - invalid query"
  else
    handle_error_branch status body ("HTTP " ++ toString status)

/-- The while-True retry loop of _make_request over a finite trace of attempt
outcomes: a timeout consumes one outcome and loops, a transport error raises
the typed error with status 0 and the raw text at once, a response is handled
by status code. The value none means the trace was exhausted with the loop
still running (so an all-timeout trace never produces a result). -/
def make_request : List AttemptOutcome → Option RequestOutcome
  | [] => none
  | AttemptOutcome.timeout :: rest => make_request rest
  | AttemptOutcome.transportError msg :: _ =>
      some (RequestOutcome.apiError ⟨0, Json.str msg, none⟩)
  | AttemptOutcome.response status body :: _ =>
      some (handle_response status body)

-- ===== CLIENT OPERATIONS (request construction) =====

/-- The HTTP request one client method hands to the executor: method,
endpoint path, JSON body for POST calls, query-string parameters for GET
calls. -/
structure HttpRequest : Type where
  method : String
  endpoint : String
  data : Option (List (String × Json)) := none
  params : Option (List (String × String)) := none

/-- wordstat_frequency: builds a FrequencyRequest from its arguments and
issues a POST to the frequency endpoint with the exclude_none dump as body. -/
def wordstat_frequency (query region : Option String) (device : WordstatDevice)
    (task_type : WordstatTaskType) (querySyntax : WordstatSyntax) : HttpRequest :=
  { method := "POST"
    endpoint := "/api/v1/wordstat/frequency"
    data := some (FrequencyRequest.model_dump_exclude_none
      ⟨query, region, device, task_type, querySyntax⟩)
    params := none }

/-- wordstat_deep: builds a DeepRequest and issues a POST to the deep
endpoint. -/
def wordstat_deep (query region : Option String) (device : WordstatDevice)
    (task_type : WordstatTaskType) : HttpRequest :=
  { method := "POST"
    endpoint := "/api/v1/wordstat/deep"
    data := some (DeepRequest.model_dump_exclude_none ⟨query, region, device, task_type⟩)
    params := none }

/-- wordstat_history: pydantic construction of the HistoryRequest comes
first, so an invalid query raises a ValidationError (modelled by none) before
any request exists; on success the POST to the history endpoint is issued. -/
def wordstat_history (query : String) (region : Option String)
    (device : WordstatDevice) (grouping : WordstatGrouping)
    (start_date end_date : Option String) : Option HttpRequest :=
  match HistoryRequest.validate query region device grouping start_date end_date with
  | none => none
  | some r =>
      some { method := "POST"
             endpoint := "/api/v1/wordstat/history"
             data := some r.model_dump_exclude_none
             params := none }

/-- region_yandex: GET with the query as the single query-string parameter;
no client-side validation of the string. -/
def region_yandex (query : String) : HttpRequest :=
  { method := "GET"
    endpoint := "/api/v1/region/yandex"
    data := none
    params := some [("query", query)] }

/-- region_google: GET with the query as the single query-string parameter. -/
def region_google (query : String) : HttpRequest :=
  { method := "GET"
    endpoint := "/api/v1/region/google"
    data := none
    params := some [("query", query)] }

/-- region_check: GET with code, searchSystem and searchType parameters,
enum values as their wire strings. -/
def region_check (code : String) (search_system : SearchSystem)
    (search_type : RegionSearchType) : HttpRequest :=
  { method := "GET"
    endpoint := "/api/v1/region/check"
    data := none
    params := some [("code", code),
                    ("searchSystem", search_system.value),
                    ("searchType", search_type.value)] }

/-- finance_total: GET with an empty parameter dict, extended with the
service wire string when the service argument is given (every ServiceType
wire string is nonempty, hence truthy). -/
def finance_total (service : Option ServiceType) : HttpRequest :=
  { method := "GET"
    endpoint := "/api/v1/finance/total"
    data := none
    params := some (match service with
      | none => []
      | some s => [("service", s.value)]) }

/-- finance_statistics: builds a FinanceStatsRequest and issues a POST to the
statistics endpoint. -/
def finance_statistics (service_type : Option ServiceType)
    (start_date end_date : Option String) : HttpRequest :=
  { method := "POST"
    endpoint := "/api/v1/finance/statistics"
    data := some (FinanceStatsRequest.model_dump_exclude_none
      ⟨service_type, start_date, end_date⟩)
    params := none }

-- ===== REGION LIST PARSING =====

/-- Pydantic decoding of one JSON array element into a RegionResponse, as
the construction RegionResponse with keyword expansion of the element:
fails on a non-object element or an ill-typed field. -/
def RegionResponse.decode (j : Json) : Option RegionResponse :=
  match j with
  | Json.obj fields => do
      let n ← decodeOptField (jsonLookup fields "name")
      let c ← decodeOptField (jsonLookup fields "code")
      some ⟨n, c⟩
  | _ => none

/-- The list comprehension over the decoded 200 body: each element decoded
independently and in order; the first failing element raises (none). -/
def mapDecodeRegions : List Json → Option (List RegionResponse)
  | [] => some []
  | j :: rest =>
      match RegionResponse.decode j with
      | none => none
      | some r =>
          match mapDecodeRegions rest with
          | none => none
          | some rs => some (r :: rs)

/-- Parsing of the region_yandex 200 body: iterating a non-array raises. -/
def region_yandex_parse (response_data : Json) : Option (List RegionResponse) :=
  match response_data with
  | Json.arr items => mapDecodeRegions items
  | _ => none

/-- Parsing of the region_google 200 body, same comprehension. -/
def region_google_parse (response_data : Json) : Option (List RegionResponse) :=
  match response_data with
  | Json.arr items => mapDecodeRegions items
  | _ => none

/-- Parsing of the region_check 200 body, same comprehension. -/
def region_check_parse (response_data : Json) : Option (List RegionResponse) :=
  match response_data with
  | Json.arr items => mapDecodeRegions items
  | _ => none

-- ===== CALLER-LEVEL ARGUMENT PRESENCE =====

/-- Whether the caller passed a keyword argument or left it to its default. -/
inductive Arg (α : Type) : Type
  | omitted : Arg α
  | given (val : α) : Arg α

/-- The value an argument takes once the Python default is applied. -/
def Arg.orDefault {α : Type} : Arg α → α → α
  | .omitted, d => d
  | .given v, _ => v

/-- One call of wordstat_frequency, recording for each keyword argument
whether the caller set it. -/
structure FrequencyCall : Type where
  query : Arg (Option String) := .omitted
  region : Arg (Option String) := .omitted
  device : Arg WordstatDevice := .omitted
  task_type : Arg WordstatTaskType := .omitted
  querySyntax : Arg WordstatSyntax := .omitted

/-- The FrequencyRequest that wordstat_frequency constructs for a call, the
Python signature defaults applied to omitted arguments. -/
def FrequencyCall.toRequest (c : FrequencyCall) : FrequencyRequest :=
  { query := c.query.orDefault none
    region := c.region.orDefault none
    device := c.device.orDefault .ALL
    task_type := c.task_type.orDefault .REGULAR
    querySyntax := c.querySyntax.orDefault .WS }

/-- The serialized POST payload produced for one wordstat_frequency call. -/
def FrequencyCall.payload (c : FrequencyCall) : List (String × Json) :=
  c.toRequest.model_dump_exclude_none

-- ===== HELPER LEMMAS =====

/-- The non-200 error handler characterized: the typed error it raises always
carries the response status; the attached error model is exactly the result
of the strict decode, with the truthiness fallback applied to its
error_message; when the strict decode fails and a typed error is still
raised, the body was a JSON object and the message is the permissive lookup
with the default. -/
theorem handle_error_characterization (status : Nat) (error_data : Json)
    (dflt : String) (e : SerpProAPIError)
    (h : handle_error status error_data dflt = RequestOutcome.apiError e) :
    e.status_code = status ∧
    (∀ g, e.error_model = some g →
      decodeGlobalError error_data = some g ∧
      e.message = Json.str (pyStrOr g.error_message dflt)) ∧
    (e.error_model = none →
      decodeGlobalError error_data = none ∧
      ∃ fields, error_data = Json.obj fields ∧
        e.message = (jsonLookup fields "error_message").getD (Json.str dflt)) := by
  unfold handle_error at h
  cases hg : decodeGlobalError error_data with
  | some g =>
      rw [hg] at h
      simp only [RequestOutcome.apiError.injEq] at h
      subst h
      refine ⟨rfl, ?_, ?_⟩
      · intro g2 hg2
        simp only [Option.some.injEq] at hg2
        subst hg2
        exact ⟨rfl, rfl⟩
      · intro h0
        simp at h0
  | none =>
      rw [hg] at h
      cases hed : error_data with
      | obj fields =>
          rw [hed] at h
          simp only [RequestOutcome.apiError.injEq] at h
          subst h
          refine ⟨rfl, ?_, ?_⟩
          · intro g2 hg2
            simp at hg2
          · intro _
            exact ⟨rfl, fields, rfl, rfl⟩
      | null => rw [hed] at h; simp at h
      | str s => rw [hed] at h; simp at h
      | num n => rw [hed] at h; simp at h
      | bool b => rw [hed] at h; simp at h
      | arr items => rw [hed] at h; simp at h

/-- On a body whose strict decode fails and which is not a JSON object, the
permissive fallback lookup itself raises an AttributeError: no typed error
is produced. -/
theorem handle_error_non_object (status : Nat) (error_data : Json)
    (dflt : String) (hdec : decodeGlobalError error_data = none)
    (hobj : ∀ fields, error_data ≠ Json.obj fields) :
    handle_error status error_data dflt = RequestOutcome.raised "AttributeError" := by
  unfold handle_error
  rw [hdec]
  cases error_data with
  | obj fields => exact absurd rfl (hobj fields)
  | null => rfl
  | str s => rfl
  | num n => rfl
  | bool b => rfl
  | arr items => rfl

/-- A response with a non-empty unparsable body yields, at every status, the
typed error with status 0 and the parse-error text: at 200 from the direct
response.json call, elsewhere from the error_data computation, both caught
by the RequestException handler. -/
theorem handle_response_unparsable (status : Nat) (m : String) :
    handle_response status (ResponseBody.unparsable m) =
      RequestOutcome.apiError ⟨0, Json.str m, none⟩ := by
  unfold handle_response
  by_cases h200 : status = 200
  · rw [if_pos h200]
  · rw [if_neg h200]
    by_cases h422 : status = 422
    · rw [if_pos h422]
      rfl
    · rw [if_neg h422]
      rfl

/-- A typed error coming out of a non-200 branch on a parsable (empty or
valid-JSON) body carries the HTTP status of the response. -/
theorem handle_error_branch_status (status : Nat) (body : ResponseBody)
    (dflt : String) (e : SerpProAPIError)
    (hb : ∀ m, body ≠ ResponseBody.unparsable m)
    (h : handle_error_branch status body dflt = RequestOutcome.apiError e) :
    e.status_code = status := by
  cases body with
  | empty => exact (handle_error_characterization status (Json.obj []) dflt e h).1
  | jsonBody j => exact (handle_error_characterization status j dflt e h).1
  | unparsable m => exact absurd rfl (hb m)

/-- Elementwise specification of the region list comprehension: on success
the output has one record per input element, each the decode of the element
at the same position. -/
theorem mapDecodeRegions_elementwise (items : List Json) :
    ∀ (rs : List RegionResponse), mapDecodeRegions items = some rs →
      rs.length = items.length ∧
      ∀ (i : Nat) (hi : i < items.length) (hr : i < rs.length),
        RegionResponse.decode (items.get ⟨i, hi⟩) = some (rs.get ⟨i, hr⟩) := by
  induction items with
  | nil =>
      intro rs h
      simp only [mapDecodeRegions, Option.some.injEq] at h
      subst h
      exact ⟨rfl, fun i hi _ => absurd hi (by simp)⟩
  | cons j rest ih =>
      intro rs h
      simp only [mapDecodeRegions] at h
      cases hd : RegionResponse.decode j with
      | none => rw [hd] at h; simp at h
      | some r =>
          rw [hd] at h
          cases hm : mapDecodeRegions rest with
          | none => rw [hm] at h; simp at h
          | some rs2 =>
              rw [hm] at h
              simp only [Option.some.injEq] at h
              subst h
              rcases ih rs2 hm with ⟨hlen, helem⟩
              refine ⟨by simp [hlen], ?_⟩
              intro i hi hr
              cases i with
              | zero => exact hd
              | succ k =>
                  exact helem k (by simpa using hi) (by simpa using hr)

-- ===== CLAIM C1 =====

/-- Claim C1, counterexample: in a wordstat_frequency call where the caller
sets no argument at all, the serialized payload nevertheless contains the
keys device, task_type and syntax (their non-None defaults survive the
exclude_none dump), so the payload is not the set of caller-set fields and
the unset device field is not absent. -/
theorem C1_unset_defaults_serialized_cex :
    ({} : FrequencyCall).device = Arg.omitted ∧
    dumpKeys (FrequencyCall.payload {}) = ["device", "task_type", "syntax"] ∧
    dumpKeys (FrequencyCall.payload {}) ≠ ([] : List String) :=
  ⟨rfl, rfl, by decide⟩

/-- Claim C1, amended: a field is absent from the exclude_none payload
exactly when its value is None. Optional fields (query, region, start_date,
end_date, service_type) left unset default to None and are therefore absent,
and no field is ever serialized as null; but the enum-valued fields with
non-None defaults (device, task_type, syntax, grouping) are always present,
even when the caller did not set them. -/
theorem C1_exclude_none_payload :
    (∀ r : FrequencyRequest,
      ("query" ∈ dumpKeys r.model_dump_exclude_none ↔ r.query ≠ none) ∧
      ("region" ∈ dumpKeys r.model_dump_exclude_none ↔ r.region ≠ none) ∧
      "device" ∈ dumpKeys r.model_dump_exclude_none ∧
      "task_type" ∈ dumpKeys r.model_dump_exclude_none ∧
      "syntax" ∈ dumpKeys r.model_dump_exclude_none ∧
      Json.null ∉ r.model_dump_exclude_none.map Prod.snd) ∧
    (∀ r : DeepRequest,
      ("query" ∈ dumpKeys r.model_dump_exclude_none ↔ r.query ≠ none) ∧
      ("region" ∈ dumpKeys r.model_dump_exclude_none ↔ r.region ≠ none) ∧
      "device" ∈ dumpKeys r.model_dump_exclude_none ∧
      "task_type" ∈ dumpKeys r.model_dump_exclude_none ∧
      Json.null ∉ r.model_dump_exclude_none.map Prod.snd) ∧
    (∀ r : HistoryRequest,
      "query" ∈ dumpKeys r.model_dump_exclude_none ∧
      ("region" ∈ dumpKeys r.model_dump_exclude_none ↔ r.region ≠ none) ∧
      ("start_date" ∈ dumpKeys r.model_dump_exclude_none ↔ r.start_date ≠ none) ∧
      ("end_date" ∈ dumpKeys r.model_dump_exclude_none ↔ r.end_date ≠ none) ∧
      "device" ∈ dumpKeys r.model_dump_exclude_none ∧
      "grouping" ∈ dumpKeys r.model_dump_exclude_none ∧
      Json.null ∉ r.model_dump_exclude_none.map Prod.snd) ∧
    (∀ r : FinanceStatsRequest,
      ("service_type" ∈ dumpKeys r.model_dump_exclude_none ↔ r.service_type ≠ none) ∧
      ("start_date" ∈ dumpKeys r.model_dump_exclude_none ↔ r.start_date ≠ none) ∧
      ("end_date" ∈ dumpKeys r.model_dump_exclude_none ↔ r.end_date ≠ none) ∧
      Json.null ∉ r.model_dump_exclude_none.map Prod.snd) ∧
    (∀ c : FrequencyCall,
      (c.query = Arg.omitted → "query" ∉ dumpKeys c.payload) ∧
      (c.region = Arg.omitted → "region" ∉ dumpKeys c.payload)) := by
  refine ⟨?_, ?_, ?_, ?_, ?_⟩
  · rintro ⟨q, g, d, t, y⟩
    cases q <;> cases g <;>
      simp [FrequencyRequest.model_dump_exclude_none, optEntry, dumpKeys]
  · rintro ⟨q, g, d, t⟩
    cases q <;> cases g <;>
      simp [DeepRequest.model_dump_exclude_none, optEntry, dumpKeys]
  · rintro ⟨q, g, d, gr, sd, ed⟩
    cases g <;> cases sd <;> cases ed <;>
      simp [HistoryRequest.model_dump_exclude_none, optEntry, dumpKeys]
  · rintro ⟨st, sd, ed⟩
    cases st <;> cases sd <;> cases ed <;>
      simp [FinanceStatsRequest.model_dump_exclude_none, optEntry,
        optServiceEntry, dumpKeys]
  · rintro ⟨q, g, d, t, y⟩
    constructor
    · rintro rfl
      rcases g with _ | g2
      · simp [FrequencyCall.payload, FrequencyCall.toRequest, Arg.orDefault,
          FrequencyRequest.model_dump_exclude_none, optEntry, dumpKeys]
      · cases g2 <;>
          simp [FrequencyCall.payload, FrequencyCall.toRequest, Arg.orDefault,
            FrequencyRequest.model_dump_exclude_none, optEntry, dumpKeys]
    · rintro rfl
      rcases q with _ | q2
      · simp [FrequencyCall.payload, FrequencyCall.toRequest, Arg.orDefault,
          FrequencyRequest.model_dump_exclude_none, optEntry, dumpKeys]
      · cases q2 <;>
          simp [FrequencyCall.payload, FrequencyCall.toRequest, Arg.orDefault,
            FrequencyRequest.model_dump_exclude_none, optEntry, dumpKeys]

/-- Claim C1, witness for the amended statement at a concrete record: query
left as None is absent from the payload, the defaulted device key is
present. -/
theorem C1_exclude_none_payload_witness :
    "query" ∉ dumpKeys (FrequencyRequest.model_dump_exclude_none
      ⟨none, some "225", WordstatDevice.ALL, WordstatTaskType.REGULAR, WordstatSyntax.WS⟩) ∧
    "device" ∈ dumpKeys (FrequencyRequest.model_dump_exclude_none
      ⟨none, some "225", WordstatDevice.ALL, WordstatTaskType.REGULAR, WordstatSyntax.WS⟩) :=
  ⟨fun h => ((C1_exclude_none_payload.1 _).1.mp h) rfl, (C1_exclude_none_payload.1 _).2.2.1⟩

-- ===== CLAIM C2 =====

/-- Claim C2: in the request executor, timeouts are consumed internally and
never surface — a trace of only timeouts yields no terminal result after any
finite number of attempts, and any finite number of leading timeouts leaves
the final result exactly that of the remaining trace (unbounded resubmission
of the same request) — while a non-timeout transport exception terminates
the loop at once with the typed error carrying status 0 and the raw error
text, whatever outcomes would have followed (no retry). -/
theorem C2_timeout_retry_policy :
    (∀ (n : Nat) (rest : List AttemptOutcome),
      make_request (List.replicate n AttemptOutcome.timeout ++ rest) = make_request rest) ∧
    (∀ n : Nat, make_request (List.replicate n AttemptOutcome.timeout) = none) ∧
    (∀ (msg : String) (rest : List AttemptOutcome),
      make_request (AttemptOutcome.transportError msg :: rest) =
        some (RequestOutcome.apiError ⟨0, Json.str msg, none⟩)) := by
  have h1 : ∀ (n : Nat) (rest : List AttemptOutcome),
      make_request (List.replicate n AttemptOutcome.timeout ++ rest) = make_request rest := by
    intro n
    induction n with
    | zero => intro rest; rfl
    | succ k ih =>
        intro rest
        simpa [List.replicate_succ, make_request] using ih rest
  refine ⟨h1, ?_, ?_⟩
  · intro n
    simpa using h1 n []
  · intro msg rest
    rfl

-- ===== CLAIM C5 =====

/-- The pydantic construction of a HistoryRequest fails exactly when the
query is empty or longer than 3000 characters. -/
theorem validate_eq_none_iff (q : String) (region : Option String)
    (device : WordstatDevice) (grouping : WordstatGrouping)
    (sd ed : Option String) :
    HistoryRequest.validate q region device grouping sd ed = none ↔
      q.length = 0 ∨ 3000 < q.length := by
  unfold HistoryRequest.validate
  by_cases h : 1 ≤ q.length ∧ q.length ≤ 3000
  · rw [if_pos h]
    simp only [reduceCtorEq, false_iff]
    omega
  · rw [if_neg h]
    simp only [true_iff]
    omega

/-- wordstat_history raises exactly when the record construction raises. -/
theorem wordstat_history_eq_none_iff (q : String) (region : Option String)
    (device : WordstatDevice) (grouping : WordstatGrouping)
    (sd ed : Option String) :
    wordstat_history q region device grouping sd ed = none ↔
      HistoryRequest.validate q region device grouping sd ed = none := by
  unfold wordstat_history
  cases hv : HistoryRequest.validate q region device grouping sd ed with
  | none => simp
  | some r => simp

/-- Claim C5: pydantic construction of the history request fails, before any
request object exists, exactly for the empty query and for queries longer
than 3000 characters; in particular a one-character query and a
3000-character query are accepted. -/
theorem C5_history_length_validation :
    (∀ (q : String) (region : Option String) (device : WordstatDevice)
        (grouping : WordstatGrouping) (sd ed : Option String),
      wordstat_history q region device grouping sd ed = none ↔
        q.length = 0 ∨ 3000 < q.length) ∧
    (wordstat_history "a" none WordstatDevice.ALL WordstatGrouping.MONTH none none).isSome = true ∧
    (wordstat_history (String.mk (List.replicate 3000 (Char.ofNat 97)))
      none WordstatDevice.ALL WordstatGrouping.MONTH none none).isSome = true := by
  refine ⟨?_, rfl, ?_⟩
  · intro q region device grouping sd ed
    exact (wordstat_history_eq_none_iff q region device grouping sd ed).trans
      (validate_eq_none_iff q region device grouping sd ed)
  · have hlen : (String.mk (List.replicate 3000 (Char.ofNat 97))).length = 3000 := by
      exact List.length_replicate 3000 (Char.ofNat 97)
    cases hv : HistoryRequest.validate (String.mk (List.replicate 3000 (Char.ofNat 97)))
        none WordstatDevice.ALL WordstatGrouping.MONTH none none with
    | none =>
        rw [validate_eq_none_iff, hlen] at hv
        omega
    | some r =>
        unfold wordstat_history
        rw [hv]
        rfl

/-- Claim C5, witness: the empty query is rejected (no request is built) by
the validation characterization. -/
theorem C5_history_length_validation_witness :
    wordstat_history "" none WordstatDevice.ALL WordstatGrouping.MONTH none none = none :=
  (C5_history_length_validation.1 "" none WordstatDevice.ALL WordstatGrouping.MONTH
    none none).mpr (Or.inl rfl)

-- ===== CLAIM C3 =====

/-- Claim C3, counterexample: three 422 responses on which the claim fails.
A non-empty body that is not valid JSON makes response.json raise a
JSONDecodeError, converted by the RequestException handler to the typed
error with status 0 and the parse-error text — not a status-422 error with
the fallback message. A body whose error_message field is present but empty
decodes into the record, yet the raised message is the fixed default, not
the decoded message, because the truthiness fallback treats the empty
string as unset. A body that is valid JSON but not an object makes the
strict decode fail and the permissive fallback lookup itself raise an
untyped AttributeError, so no typed error is raised at all. -/
theorem C3_not_status_422_cex :
    (handle_response 422
        (ResponseBody.unparsable "Expecting value: line 1 column 1 (char 0)") =
      RequestOutcome.apiError
        ⟨0, Json.str "Expecting value: line 1 column 1 (char 0)", none⟩ ∧
      (0 : Nat) ≠ 422) ∧
    (handle_response 422 (ResponseBody.jsonBody (Json.obj [("error_message", Json.str "")])) =
      RequestOutcome.apiError ⟨422, Json.str "Unprocessable Content - invalid query",
        some ⟨none, some "", none, none⟩⟩ ∧
      Json.str "Unprocessable Content - invalid query" ≠ Json.str "") ∧
    handle_response 422 (ResponseBody.jsonBody (Json.arr [Json.num 1])) =
      RequestOutcome.raised "AttributeError" :=
  ⟨⟨rfl, by decide⟩, ⟨rfl, by simp⟩, rfl⟩

/-- Claim C3, amended: for a 422 response whose body text is non-empty but
not valid JSON, the JSON decode failure is caught by the transport handler
and the call raises the typed error with status 0, the parse-error text and
no record. Otherwise every typed error raised carries status 422: when the
body (an empty body decoding as the empty object) decodes strictly into the
error record, the record — including the invalid-data list — is attached
and the message is the decoded message when present and nonempty, else the
fixed default string; when strict decoding fails and a typed error is still
raised, the body was a JSON object, no record is attached, and the message
is the permissive lookup of the error_message key, defaulting to the fixed
string; when strict decoding fails on a body that is valid JSON but not an
object, the fallback itself raises an untyped AttributeError instead of a
typed error. -/
theorem C3_unprocessable_content (body : ResponseBody) :
    (∀ m, body = ResponseBody.unparsable m →
      handle_response 422 body = RequestOutcome.apiError ⟨0, Json.str m, none⟩) ∧
    (∀ (e : SerpProAPIError) (ed : Json),
      decodedErrorData body = Except.ok ed →
      handle_response 422 body = RequestOutcome.apiError e →
      e.status_code = 422 ∧
      (∀ g, e.error_model = some g →
        decodeGlobalError ed = some g ∧
        e.message = Json.str (pyStrOr g.error_message "Unprocessable Content - invalid query")) ∧
      (e.error_model = none →
        decodeGlobalError ed = none ∧
        ∃ fields, ed = Json.obj fields ∧
          e.message = (jsonLookup fields "error_message").getD
            (Json.str "Unprocessable Content - invalid query"))) ∧
    (∀ ed : Json,
      decodedErrorData body = Except.ok ed →
      decodeGlobalError ed = none →
      (∀ fields, ed ≠ Json.obj fields) →
      handle_response 422 body = RequestOutcome.raised "AttributeError") := by
  refine ⟨?_, ?_, ?_⟩
  · intro m hm
    subst hm
    exact handle_response_unparsable 422 m
  · intro e ed hed h
    cases body with
    | empty =>
        simp only [decodedErrorData, Except.ok.injEq] at hed
        subst hed
        exact handle_error_characterization 422 (Json.obj [])
          "Unprocessable Content - invalid query" e h
    | jsonBody j =>
        simp only [decodedErrorData, Except.ok.injEq] at hed
        subst hed
        exact handle_error_characterization 422 j
          "Unprocessable Content - invalid query" e h
    | unparsable m => simp [decodedErrorData] at hed
  · intro ed hed hdec hobj
    cases body with
    | empty =>
        simp only [decodedErrorData, Except.ok.injEq] at hed
        subst hed
        exact absurd rfl (hobj [])
    | jsonBody j =>
        simp only [decodedErrorData, Except.ok.injEq] at hed
        subst hed
        show handle_error 422 j "Unprocessable Content - invalid query" =
          RequestOutcome.raised "AttributeError"
        exact handle_error_non_object 422 j
          "Unprocessable Content - invalid query" hdec hobj
    | unparsable m => simp [decodedErrorData] at hed

/-- Claim C3, witness: a structured 422 body with a nonempty message and an
invalid-data list yields the typed error with the decoded message and the
record attached; its status is 422 by the amended theorem. -/
theorem C3_unprocessable_content_witness :
    handle_response 422 (ResponseBody.jsonBody (Json.obj
        [("error_message", Json.str "bad query"),
         ("invalid_data", Json.arr [Json.str "query"])])) =
      RequestOutcome.apiError ⟨422, Json.str "bad query",
        some ⟨none, some "bad query", none, some ["query"]⟩⟩ ∧
    (⟨422, Json.str "bad query",
        some ⟨none, some "bad query", none, some ["query"]⟩⟩ : SerpProAPIError).status_code = 422 :=
  ⟨rfl,
    ((C3_unprocessable_content (ResponseBody.jsonBody (Json.obj
        [("error_message", Json.str "bad query"),
         ("invalid_data", Json.arr [Json.str "query"])]))).2.1
      ⟨422, Json.str "bad query", some ⟨none, some "bad query", none, some ["query"]⟩⟩
      (Json.obj [("error_message", Json.str "bad query"),
                 ("invalid_data", Json.arr [Json.str "query"])])
      rfl rfl).1⟩

-- ===== CLAIM C4 =====

/-- Claim C4, counterexample: three 500 responses on which the claim fails.
A non-empty body that is not valid JSON raises the JSONDecodeError,
converted to the typed error with status 0 and the parse-error text —
neither status 500 nor the message HTTP 500. A body whose error_message
field is present but empty decodes into the record, yet the raised message
is the default HTTP 500, not the decoded message field. A body that is
valid JSON but not an object makes the fallback lookup raise an untyped
AttributeError instead of a typed error. -/
theorem C4_not_status_cex :
    (handle_response 500
        (ResponseBody.unparsable "Expecting value: line 1 column 1 (char 0)") =
      RequestOutcome.apiError
        ⟨0, Json.str "Expecting value: line 1 column 1 (char 0)", none⟩ ∧
      (0 : Nat) ≠ 500 ∧
      Json.str "Expecting value: line 1 column 1 (char 0)" ≠ Json.str "HTTP 500") ∧
    (handle_response 500 (ResponseBody.jsonBody (Json.obj [("error_message", Json.str "")])) =
      RequestOutcome.apiError ⟨500, Json.str "HTTP 500", some ⟨none, some "", none, none⟩⟩ ∧
      Json.str "HTTP 500" ≠ Json.str "") ∧
    handle_response 500 (ResponseBody.jsonBody (Json.arr [Json.num 1])) =
      RequestOutcome.raised "AttributeError" :=
  ⟨⟨rfl, by decide, by simp⟩, ⟨rfl, by simp⟩, rfl⟩

/-- Claim C4, amended: for every status other than 200 and 422, a response
whose body text is non-empty but not valid JSON raises the typed error with
status 0 and the parse-error text; otherwise every typed error raised
carries that status, with the message being the decoded error_message when
present and nonempty, and the default HTTP-status string when it is absent,
null or empty; when strict decoding fails on a JSON object body, the
message is the permissive lookup of the error_message key with the same
default and no record; when strict decoding fails on a non-object JSON
body, the fallback itself raises an untyped AttributeError. -/
theorem C4_other_status_error (status : Nat) (body : ResponseBody)
    (h200 : status ≠ 200) (h422 : status ≠ 422) :
    (∀ m, body = ResponseBody.unparsable m →
      handle_response status body = RequestOutcome.apiError ⟨0, Json.str m, none⟩) ∧
    (∀ (e : SerpProAPIError) (ed : Json),
      decodedErrorData body = Except.ok ed →
      handle_response status body = RequestOutcome.apiError e →
      e.status_code = status ∧
      (∀ g, e.error_model = some g →
        decodeGlobalError ed = some g ∧
        e.message = Json.str (pyStrOr g.error_message ("HTTP " ++ toString status))) ∧
      (e.error_model = none →
        decodeGlobalError ed = none ∧
        ∃ fields, ed = Json.obj fields ∧
          e.message = (jsonLookup fields "error_message").getD
            (Json.str ("HTTP " ++ toString status)))) ∧
    (∀ ed : Json,
      decodedErrorData body = Except.ok ed →
      decodeGlobalError ed = none →
      (∀ fields, ed ≠ Json.obj fields) →
      handle_response status body = RequestOutcome.raised "AttributeError") := by
  have hbr : handle_response status body =
      handle_error_branch status body ("HTTP " ++ toString status) := by
    unfold handle_response
    rw [if_neg h200, if_neg h422]
  refine ⟨?_, ?_, ?_⟩
  · intro m hm
    subst hm
    exact handle_response_unparsable status m
  · intro e ed hed h
    rw [hbr] at h
    cases body with
    | empty =>
        simp only [decodedErrorData, Except.ok.injEq] at hed
        subst hed
        exact handle_error_characterization status (Json.obj [])
          ("HTTP " ++ toString status) e h
    | jsonBody j =>
        simp only [decodedErrorData, Except.ok.injEq] at hed
        subst hed
        exact handle_error_characterization status j ("HTTP " ++ toString status) e h
    | unparsable m => simp [decodedErrorData] at hed
  · intro ed hed hdec hobj
    rw [hbr]
    cases body with
    | empty =>
        simp only [decodedErrorData, Except.ok.injEq] at hed
        subst hed
        exact absurd rfl (hobj [])
    | jsonBody j =>
        simp only [decodedErrorData, Except.ok.injEq] at hed
        subst hed
        show handle_error status j ("HTTP " ++ toString status) =
          RequestOutcome.raised "AttributeError"
        exact handle_error_non_object status j ("HTTP " ++ toString status) hdec hobj
    | unparsable m => simp [decodedErrorData] at hed

/-- Claim C4, witness: a 500 response with an empty body yields the typed
error with message HTTP 500; its status is 500 by the amended theorem. -/
theorem C4_other_status_error_witness :
    handle_response 500 ResponseBody.empty =
      RequestOutcome.apiError ⟨500, Json.str "HTTP 500", some ⟨none, none, none, none⟩⟩ ∧
    (⟨500, Json.str "HTTP 500", some ⟨none, none, none, none⟩⟩ : SerpProAPIError).status_code = 500 :=
  ⟨rfl,
    ((C4_other_status_error 500 ResponseBody.empty (by decide) (by decide)).2.1
      ⟨500, Json.str "HTTP 500", some ⟨none, none, none, none⟩⟩ (Json.obj [])
      rfl rfl).1⟩

-- ===== CLAIM C10 =====

/-- Claim C10: every non-200 response with an empty body raises the typed
error with a present error record whose fields are all unset (the strict
decode of the empty object succeeds since every field is Optional), and the
message is the fixed default for the status class. -/
theorem C10_empty_body_default_model (status : Nat) (h200 : status ≠ 200) :
    handle_response status ResponseBody.empty =
      RequestOutcome.apiError
        ⟨status,
         Json.str (if status = 422 then "Unprocessable Content - invalid query"
                   else "HTTP " ++ toString status),
         some ⟨none, none, none, none⟩⟩ := by
  by_cases h422 : status = 422
  · subst h422
    rfl
  · unfold handle_response
    rw [if_neg h200, if_neg h422, if_neg h422]
    rfl

/-- Claim C10, witness: a 503 response with an empty body, by the theorem. -/
theorem C10_empty_body_default_model_witness :
    handle_response 503 ResponseBody.empty =
      RequestOutcome.apiError ⟨503, Json.str "HTTP 503", some ⟨none, none, none, none⟩⟩ :=
  C10_empty_body_default_model 503 (by decide)

-- ===== CLAIM C6 =====

/-- A region list parser maps array elements independently and in order:
the empty array parses to the empty list (a valid result, not an error),
and a successful parse has one record per element, each the decode of the
element at the same position. -/
def RegionParseElementwise (parse : Json → Option (List RegionResponse)) : Prop :=
  parse (Json.arr []) = some [] ∧
  ∀ (items : List Json) (rs : List RegionResponse),
    parse (Json.arr items) = some rs →
      rs.length = items.length ∧
      ∀ (i : Nat) (hi : i < items.length) (hr : i < rs.length),
        RegionResponse.decode (items.get ⟨i, hi⟩) = some (rs.get ⟨i, hr⟩)

/-- Claim C6: the three list-returning operations parse a JSON array body
elementwise, preserving the remote ordering, and an empty array yields the
empty sequence. -/
theorem C6_region_lists_elementwise :
    RegionParseElementwise region_yandex_parse ∧
    RegionParseElementwise region_google_parse ∧
    RegionParseElementwise region_check_parse :=
  ⟨⟨rfl, fun items rs h => mapDecodeRegions_elementwise items rs h⟩,
   ⟨rfl, fun items rs h => mapDecodeRegions_elementwise items rs h⟩,
   ⟨rfl, fun items rs h => mapDecodeRegions_elementwise items rs h⟩⟩

/-- Claim C6, witness: a one-element array parses to the one decoded record
and, by the theorem, the lengths agree. -/
theorem C6_region_lists_elementwise_witness :
    region_yandex_parse (Json.arr
        [Json.obj [("name", Json.str "Moscow"), ("code", Json.str "213")]]) =
      some [⟨some "Moscow", some "213"⟩] ∧
    ([⟨some "Moscow", some "213"⟩] : List RegionResponse).length =
      [Json.obj [("name", Json.str "Moscow"), ("code", Json.str "213")]].length :=
  ⟨rfl, (C6_region_lists_elementwise.1.2
    [Json.obj [("name", Json.str "Moscow"), ("code", Json.str "213")]]
    [⟨some "Moscow", some "213"⟩] rfl).1⟩

-- ===== CLAIM C7 =====

/-- Claim C7: over any attempt trace whose HTTP responses carry real status
codes (at least 100), a typed error raised by the executor has status 0
exactly when it came from a RequestException — a transport-level exception
outside the loop body, carrying the raw text, or the JSON decode failure of
an empty or unparsable response body, carrying the parse-error text — and
otherwise carries the nonzero HTTP status of a received response; in every
status-0 case no error model is attached; caller-side invalid input never
reaches the executor (wordstat_history returns no request on a validation
failure, separately stated in the C5 development). -/
theorem C7_status_code_classes :
    ∀ (trace : List AttemptOutcome) (e : SerpProAPIError),
      (∀ (s : Nat) (b : ResponseBody), AttemptOutcome.response s b ∈ trace → 100 ≤ s) →
      make_request trace = some (RequestOutcome.apiError e) →
      (e.status_code = 0 ∧ e.error_model = none ∧
        ((∃ msg, AttemptOutcome.transportError msg ∈ trace ∧ e.message = Json.str msg) ∨
         (AttemptOutcome.response 200 ResponseBody.empty ∈ trace ∧
           e.message = Json.str jsonDecodeErrorMessage) ∨
         (∃ s m, AttemptOutcome.response s (ResponseBody.unparsable m) ∈ trace ∧
           e.message = Json.str m))) ∨
      (100 ≤ e.status_code ∧ ∃ b, AttemptOutcome.response e.status_code b ∈ trace) := by
  intro trace
  induction trace with
  | nil =>
      intro e hresp h
      simp [make_request] at h
  | cons o rest ih =>
      intro e hresp h
      cases o with
      | timeout =>
          have h2 : make_request rest = some (RequestOutcome.apiError e) := h
          rcases ih e (fun s b hb => hresp s b (List.mem_cons_of_mem _ hb)) h2 with
            ⟨h0, hmod, hc⟩ | ⟨hs, b, hb⟩
          · refine Or.inl ⟨h0, hmod, ?_⟩
            rcases hc with ⟨msg, hm, hmsg⟩ | ⟨hm, hmsg⟩ | ⟨s, m, hm, hmsg⟩
            · exact Or.inl ⟨msg, List.mem_cons_of_mem _ hm, hmsg⟩
            · exact Or.inr (Or.inl ⟨List.mem_cons_of_mem _ hm, hmsg⟩)
            · exact Or.inr (Or.inr ⟨s, m, List.mem_cons_of_mem _ hm, hmsg⟩)
          · exact Or.inr ⟨hs, b, List.mem_cons_of_mem _ hb⟩
      | transportError msg =>
          have h2 : some (RequestOutcome.apiError ⟨0, Json.str msg, none⟩) =
              some (RequestOutcome.apiError e) := h
          have h3 := Option.some.inj h2
          injection h3 with h4
          subst h4
          exact Or.inl ⟨rfl, rfl, Or.inl ⟨msg, List.mem_cons_self _ _, rfl⟩⟩
      | response s b =>
          have h2 : some (handle_response s b) = some (RequestOutcome.apiError e) := h
          have h3 := Option.some.inj h2
          cases b with
          | unparsable m =>
              rw [handle_response_unparsable s m] at h3
              injection h3 with h4
              subst h4
              exact Or.inl ⟨rfl, rfl,
                Or.inr (Or.inr ⟨s, m, List.mem_cons_self _ _, rfl⟩)⟩
          | empty =>
              by_cases h200 : s = 200
              · subst h200
                rw [show handle_response 200 ResponseBody.empty = RequestOutcome.apiError
                    ⟨0, Json.str jsonDecodeErrorMessage, none⟩ from rfl] at h3
                injection h3 with h4
                subst h4
                exact Or.inl ⟨rfl, rfl, Or.inr (Or.inl ⟨List.mem_cons_self _ _, rfl⟩)⟩
              · have hst : e.status_code = s := by
                  unfold handle_response at h3
                  rw [if_neg h200] at h3
                  by_cases h422 : s = 422
                  · rw [if_pos h422] at h3
                    exact handle_error_branch_status s ResponseBody.empty _ e
                      (fun m hm => ResponseBody.noConfusion hm) h3
                  · rw [if_neg h422] at h3
                    exact handle_error_branch_status s ResponseBody.empty _ e
                      (fun m hm => ResponseBody.noConfusion hm) h3
                subst hst
                exact Or.inr ⟨hresp e.status_code ResponseBody.empty (List.mem_cons_self _ _),
                  ResponseBody.empty, List.mem_cons_self _ _⟩
          | jsonBody j =>
              by_cases h200 : s = 200
              · subst h200
                rw [show handle_response 200 (ResponseBody.jsonBody j) =
                    RequestOutcome.ok j from rfl] at h3
                simp at h3
              · have hst : e.status_code = s := by
                  unfold handle_response at h3
                  rw [if_neg h200] at h3
                  by_cases h422 : s = 422
                  · rw [if_pos h422] at h3
                    exact handle_error_branch_status s (ResponseBody.jsonBody j) _ e
                      (fun m hm => ResponseBody.noConfusion hm) h3
                  · rw [if_neg h422] at h3
                    exact handle_error_branch_status s (ResponseBody.jsonBody j) _ e
                      (fun m hm => ResponseBody.noConfusion hm) h3
                subst hst
                exact Or.inr ⟨hresp e.status_code (ResponseBody.jsonBody j)
                    (List.mem_cons_self _ _),
                  ResponseBody.jsonBody j, List.mem_cons_self _ _⟩

/-- Claim C7, witness: a lone DNS-style transport failure, by the theorem,
lands in the status-0 transport class. -/
theorem C7_status_code_classes_witness :
    ((⟨0, Json.str "dns failure", none⟩ : SerpProAPIError).status_code = 0 ∧
      (⟨0, Json.str "dns failure", none⟩ : SerpProAPIError).error_model = none ∧
      ((∃ msg, AttemptOutcome.transportError msg ∈ [AttemptOutcome.transportError "dns failure"] ∧
          (⟨0, Json.str "dns failure", none⟩ : SerpProAPIError).message = Json.str msg) ∨
       (AttemptOutcome.response 200 ResponseBody.empty ∈
            [AttemptOutcome.transportError "dns failure"] ∧
          (⟨0, Json.str "dns failure", none⟩ : SerpProAPIError).message =
            Json.str jsonDecodeErrorMessage) ∨
       (∃ s m, AttemptOutcome.response s (ResponseBody.unparsable m) ∈
            [AttemptOutcome.transportError "dns failure"] ∧
          (⟨0, Json.str "dns failure", none⟩ : SerpProAPIError).message = Json.str m))) ∨
    (100 ≤ (⟨0, Json.str "dns failure", none⟩ : SerpProAPIError).status_code ∧
      ∃ b, AttemptOutcome.response
          (⟨0, Json.str "dns failure", none⟩ : SerpProAPIError).status_code b ∈
        [AttemptOutcome.transportError "dns failure"]) :=
  C7_status_code_classes [AttemptOutcome.transportError "dns failure"]
    ⟨0, Json.str "dns failure", none⟩ (by intro s b hb; simp at hb) rfl

-- ===== CLAIM C8 =====

/-- Claim C8: every exposed operation targets its fixed endpoint path with
its fixed HTTP method; the four POST operations send the exclude_none dump
of their request record as the body and no query parameters, the four GET
operations send their fields as query-string parameters and no body. -/
theorem C8_fixed_endpoints :
    (∀ (q g : Option String) (d : WordstatDevice) (t : WordstatTaskType)
        (y : WordstatSyntax),
      wordstat_frequency q g d t y =
        { method := "POST", endpoint := "/api/v1/wordstat/frequency",
          data := some (FrequencyRequest.model_dump_exclude_none ⟨q, g, d, t, y⟩),
          params := none }) ∧
    (∀ (q g : Option String) (d : WordstatDevice) (t : WordstatTaskType),
      wordstat_deep q g d t =
        { method := "POST", endpoint := "/api/v1/wordstat/deep",
          data := some (DeepRequest.model_dump_exclude_none ⟨q, g, d, t⟩),
          params := none }) ∧
    (∀ (q : String) (g : Option String) (d : WordstatDevice)
        (gr : WordstatGrouping) (sd ed : Option String) (r : HistoryRequest),
      HistoryRequest.validate q g d gr sd ed = some r →
      wordstat_history q g d gr sd ed =
        some { method := "POST", endpoint := "/api/v1/wordstat/history",
               data := some r.model_dump_exclude_none, params := none }) ∧
    (∀ (st : Option ServiceType) (sd ed : Option String),
      finance_statistics st sd ed =
        { method := "POST", endpoint := "/api/v1/finance/statistics",
          data := some (FinanceStatsRequest.model_dump_exclude_none ⟨st, sd, ed⟩),
          params := none }) ∧
    (∀ q : String, region_yandex q =
      { method := "GET", endpoint := "/api/v1/region/yandex",
        data := none, params := some [("query", q)] }) ∧
    (∀ q : String, region_google q =
      { method := "GET", endpoint := "/api/v1/region/google",
        data := none, params := some [("query", q)] }) ∧
    (∀ (c : String) (ss : SearchSystem) (st : RegionSearchType),
      region_check c ss st =
        { method := "GET", endpoint := "/api/v1/region/check",
          data := none,
          params := some [("code", c), ("searchSystem", ss.value),
                          ("searchType", st.value)] }) ∧
    (finance_total none =
      { method := "GET", endpoint := "/api/v1/finance/total",
        data := none, params := some [] }) ∧
    (∀ sv : ServiceType, finance_total (some sv) =
      { method := "GET", endpoint := "/api/v1/finance/total",
        data := none, params := some [("service", sv.value)] }) := by
  refine ⟨fun q g d t y => rfl, fun q g d t => rfl, ?_, fun st sd ed => rfl,
    fun q => rfl, fun q => rfl, fun c ss st => rfl, rfl, fun sv => rfl⟩
  intro q g d gr sd ed r hv
  unfold wordstat_history
  rw [hv]

/-- Claim C8, witness: the history operation at a valid one-character query,
by the theorem. -/
theorem C8_fixed_endpoints_witness :
    wordstat_history "a" none WordstatDevice.ALL WordstatGrouping.MONTH none none =
      some { method := "POST", endpoint := "/api/v1/wordstat/history",
             data := some (HistoryRequest.model_dump_exclude_none
               ⟨"a", none, WordstatDevice.ALL, WordstatGrouping.MONTH, none, none⟩),
             params := none } :=
  C8_fixed_endpoints.2.2.1 "a" none WordstatDevice.ALL WordstatGrouping.MONTH none none
    ⟨"a", none, WordstatDevice.ALL, WordstatGrouping.MONTH, none, none⟩ rfl

-- ===== CLAIM C9 =====

/-- Claim C9: only the history operation validates caller input. The
frequency and deep operations accept an unset (None) query and still issue
their POST request, with the query key simply absent from the body; the
region operations pass every string argument, including the empty string,
into the query parameters unchanged and unchecked; the history operation,
by contrast, refuses the empty query. -/
theorem C9_only_history_validates :
    (∀ (g : Option String) (d : WordstatDevice) (t : WordstatTaskType)
        (y : WordstatSyntax),
      (wordstat_frequency none g d t y).method = "POST" ∧
      (wordstat_frequency none g d t y).endpoint = "/api/v1/wordstat/frequency" ∧
      "query" ∉ dumpKeys ((wordstat_frequency none g d t y).data.getD [])) ∧
    (∀ (g : Option String) (d : WordstatDevice) (t : WordstatTaskType),
      (wordstat_deep none g d t).method = "POST" ∧
      (wordstat_deep none g d t).endpoint = "/api/v1/wordstat/deep" ∧
      "query" ∉ dumpKeys ((wordstat_deep none g d t).data.getD [])) ∧
    (∀ q : String, (region_yandex q).params = some [("query", q)] ∧
      (region_google q).params = some [("query", q)]) ∧
    (∀ (c : String) (ss : SearchSystem) (st : RegionSearchType),
      (region_check c ss st).params =
        some [("code", c), ("searchSystem", ss.value), ("searchType", st.value)]) ∧
    (region_yandex "").params = some [("query", "")] ∧
    wordstat_history "" none WordstatDevice.ALL WordstatGrouping.MONTH none none = none := by
  refine ⟨?_, ?_, fun q => ⟨rfl, rfl⟩, fun c ss st => rfl, rfl, rfl⟩
  · intro g d t y
    refine ⟨rfl, rfl, ?_⟩
    cases g <;>
      simp [wordstat_frequency, FrequencyRequest.model_dump_exclude_none,
        optEntry, dumpKeys]
  · intro g d t
    refine ⟨rfl, rfl, ?_⟩
    cases g <;>
      simp [wordstat_deep, DeepRequest.model_dump_exclude_none, optEntry, dumpKeys]

/-- Claim C9, witness: concrete unchecked calls, by the theorem. -/
theorem C9_only_history_validates_witness :
    (wordstat_frequency none none WordstatDevice.ALL WordstatTaskType.REGULAR
      WordstatSyntax.WS).method = "POST" ∧
    (region_yandex "").params = some [("query", "")] :=
  ⟨(C9_only_history_validates.1 none WordstatDevice.ALL WordstatTaskType.REGULAR
      WordstatSyntax.WS).1,
    C9_only_history_validates.2.2.2.2.1⟩
